import Mathlib

/-!
Shallow embedding of the snake-game server core (`src/index.ts`).

Conventions of the embedding:
* JS numbers holding pixel coordinates, timestamps and scores are modelled as
  `Int` (all values the program stores in them are integers).
* JS `%` has the sign of the dividend; every `%` in the source is applied to a
  dividend that is nonnegative for the coordinate ranges the program stores
  (`coord + delta*BLOCK_SIZE + axisSize` with `coord ≥ 0`), where JS `%`
  coincides with Lean's `Int.emod` (`%`), so `%` is used directly.
* `Math.random()`-driven food generation is modelled by an oracle
  `rng : Nat → Nat × Nat` together with a call counter `k`: the k-th call of
  `generateFood` consumes `rng k`; `Math.floor(Math.random() * n)` — an
  arbitrary integer in `[0, n)` — is modelled as `rng k % n`.
* The rate-limit test `now - lastUpdate < 1000 / GAME_SPEED` compares an
  integer with the float `1000/15 ≈ 66.67`; for integers this is exactly
  `(now - lastUpdate) * 15 < 1000`, which is how it is written here.
* `update()` returns nothing in the source; following the spec's
  `step(now) -> did-advance : bool` reading, the embedding returns the
  updated state, the new oracle counter, and whether the tick advanced
  (the early `return` is `false`, running to completion is `true`).
-/

/-- Game constant: `CANVAS_WIDTH = 800`. -/
def CANVAS_WIDTH : Int := 800

/-- Game constant: `CANVAS_HEIGHT = 600`. -/
def CANVAS_HEIGHT : Int := 600

/-- Game constant: `BLOCK_SIZE = 20`. -/
def BLOCK_SIZE : Int := 20

/-- Game constant: `GAME_SPEED = 15` (simulation tick rate in Hz). -/
def GAME_SPEED : Int := 15

/-- Colour constant `COLORS.GREEN`. -/
def COLORS.GREEN : String := "#00FF00"

/-- Colour constant `COLORS.BLUE`. -/
def COLORS.BLUE : String := "#0000FF"

/-- Colour constant `COLORS.RED`. -/
def COLORS.RED : String := "#FF0000"

/-- `type Position = { x: number; y: number }`. -/
@[ext]
structure Position where
  x : Int
  y : Int
deriving DecidableEq, Repr

/-- A direction is a unit delta `{ x, y }` (the `Direction` object values). -/
@[ext]
structure Direction where
  x : Int
  y : Int
deriving DecidableEq, Repr

/-- `Direction.UP = { x: 0, y: -1 }`. -/
def Direction.UP : Direction := { x := 0, y := -1 }

/-- `Direction.DOWN = { x: 0, y: 1 }`. -/
def Direction.DOWN : Direction := { x := 0, y := 1 }

/-- `Direction.LEFT = { x: -1, y: 0 }`. -/
def Direction.LEFT : Direction := { x := -1, y := 0 }

/-- `Direction.RIGHT = { x: 1, y: 0 }`. -/
def Direction.RIGHT : Direction := { x := 1, y := 0 }

/-- The snake objects built by `initializeGameState`. -/
@[ext]
structure Snake where
  positions : List Position
  direction : Direction
  color : String
  score : Int
  speed : Int
deriving DecidableEq, Repr

/-- The food objects built by `generateFood`. -/
@[ext]
structure Food where
  position : Position
  color : String
deriving DecidableEq, Repr

/-- `GameRoom.gameState`: two snakes, the food, the last-update timestamp. -/
@[ext]
structure GameState where
  snake1 : Snake
  snake2 : Snake
  food : Food
  lastUpdate : Int
deriving DecidableEq, Repr

/-- `generateFood()`: `x = floor(random * (CANVAS_WIDTH / BLOCK_SIZE)) * BLOCK_SIZE`,
`y = floor(random * (CANVAS_HEIGHT / BLOCK_SIZE)) * BLOCK_SIZE`, colour red.
The random integers in `[0, 40)` and `[0, 30)` come from the oracle value `r`. -/
def generateFood (r : Nat × Nat) : Food :=
  { position :=
      { x := ((r.1 : Int) % (CANVAS_WIDTH / BLOCK_SIZE)) * BLOCK_SIZE,
        y := ((r.2 : Int) % (CANVAS_HEIGHT / BLOCK_SIZE)) * BLOCK_SIZE },
    color := COLORS.RED }

/-- `initializeGameState()`. `r` is the oracle value consumed by the inner
`generateFood()` call; `now` stands for the `Date.now()` read into
`lastUpdate`. -/
def initializeGameState (r : Nat × Nat) (now : Int) : GameState :=
  { snake1 :=
      { positions := [{ x := CANVAS_WIDTH / 4, y := CANVAS_HEIGHT / 2 }],
        direction := Direction.RIGHT,
        color := COLORS.GREEN,
        score := 0,
        speed := GAME_SPEED },
    snake2 :=
      { positions := [{ x := CANVAS_WIDTH * 3 / 4, y := CANVAS_HEIGHT / 2 }],
        direction := Direction.LEFT,
        color := COLORS.BLUE,
        score := 0,
        speed := GAME_SPEED },
    food := generateFood r,
    lastUpdate := now }

/-- `resetGame()`: replaces the whole game state with a fresh one. -/
def resetGame (r : Nat × Nat) (now : Int) : GameState :=
  initializeGameState r now

/-- The new head computed in `update()`:
`{ x: (head.x + direction.x * BLOCK_SIZE + CANVAS_WIDTH) % CANVAS_WIDTH, ... }`
where `head = snake.positions[0]`. -/
def newHead (s : Snake) : Position :=
  let head := s.positions.headD { x := 0, y := 0 }
  { x := (head.x + s.direction.x * BLOCK_SIZE + CANVAS_WIDTH) % CANVAS_WIDTH,
    y := (head.y + s.direction.y * BLOCK_SIZE + CANVAS_HEIGHT) % CANVAS_HEIGHT }

/-- One snake's share of the `forEach` body in `update()` (lines 105-120):
unshift the new head; if it equals `food0` — the food captured by the
destructuring `const { snake1, snake2, food } = this.gameState` at the top of
`update()` — increment the score (the caller respawns the food), else pop the
tail. Returns the updated snake and whether it ate. -/
def stepSnake (food0 : Position) (s : Snake) : Snake × Bool :=
  let nh := newHead s
  if nh.x = food0.x ∧ nh.y = food0.y then
    ({ s with positions := nh :: s.positions, score := s.score + 1 }, true)
  else
    ({ s with positions := (nh :: s.positions).dropLast }, false)

/-- Lines 104-121 of `update()`: move snake1 then snake2. Both eating checks
compare against `food0`, the food position captured by the destructuring at
the top of `update()` — NOT against `this.gameState.food`, which each eating
event overwrites with a fresh `generateFood()` result. `k` is the oracle
counter; each `generateFood()` call consumes one oracle value. -/
def moveSnakes (rng : Nat → Nat × Nat) (k : Nat) (gs : GameState) :
    GameState × Nat :=
  let food0 := gs.food.position
  let r1 := stepSnake food0 gs.snake1
  let food1 := if r1.2 then generateFood (rng k) else gs.food
  let k1 := if r1.2 then k + 1 else k
  let r2 := stepSnake food0 gs.snake2
  let food2 := if r2.2 then generateFood (rng k1) else food1
  let k2 := if r2.2 then k1 + 1 else k1
  ({ gs with snake1 := r1.1, snake2 := r2.1, food := food2 }, k2)

/-- `checkSelfCollision(snake)`: head equals some cell of
`snake.positions.slice(1)`. -/
def checkSelfCollision (s : Snake) : Bool :=
  let head := s.positions.headD { x := 0, y := 0 }
  (s.positions.drop 1).any fun p => p.x == head.x && p.y == head.y

/-- `checkSnakeCollision()`: either head occurs anywhere in the other snake's
full positions list. -/
def checkSnakeCollision (snake1 snake2 : Snake) : Bool :=
  let head1 := snake1.positions.headD { x := 0, y := 0 }
  let head2 := snake2.positions.headD { x := 0, y := 0 }
  (snake2.positions.any fun p => p.x == head1.x && p.y == head1.y) ||
    (snake1.positions.any fun p => p.x == head2.x && p.y == head2.y)

/-- `checkCollision()`. -/
def checkCollision (gs : GameState) : Bool :=
  checkSelfCollision gs.snake1 || checkSelfCollision gs.snake2 ||
    checkSnakeCollision gs.snake1 gs.snake2

/-- `update()` (lines 96-130). Returns the new state, the new oracle counter
and whether the tick advanced. The rate-limit comparison
`now - lastUpdate < 1000 / GAME_SPEED` (float `1000/15`) is written in its
exact integer form `(now - lastUpdate) * GAME_SPEED < 1000`. After a detected
collision, `resetGame()` rebuilds the state (consuming one oracle value for
the new food); line 129 then sets `lastUpdate = now` on whichever state object
is current. -/
def update (rng : Nat → Nat × Nat) (k : Nat) (now : Int) (gs : GameState) :
    GameState × Nat × Bool :=
  if (now - gs.lastUpdate) * GAME_SPEED < 1000 then (gs, k, false)
  else
    let mk := moveSnakes rng k gs
    let g2 :=
      if checkCollision mk.1 then (resetGame (rng mk.2) now, mk.2 + 1)
      else (mk.1, mk.2)
    ({ g2.1 with lastUpdate := now }, g2.2, true)

/-- The direction-handler rejection test (lines 221-227): requested and
current share a zero x-axis, or share a zero y-axis, or the request is the
exact negation of the current direction. -/
def directionRejected (req cur : Direction) : Bool :=
  (req.x == 0 && cur.x == 0) || (req.y == 0 && cur.y == 0) ||
    (req.x == -cur.x && req.y == -cur.y)

/-- The `direction` handler's effect on the resolved snake (lines 217-230):
silently ignore a rejected request, otherwise replace the direction. -/
def applyDirection (req : Direction) (s : Snake) : Snake :=
  if directionRejected req s.direction then s
  else { s with direction := req }

/-- `GameRoom` as the room-registry level sees it: id, ordered occupant list,
game state, and whether the `setInterval` tick loop is live
(`gameLoop !== null`). -/
@[ext]
structure GameRoom where
  id : String
  players : List String
  gameState : GameState
  gameLoopRunning : Bool
deriving DecidableEq, Repr

/-- Outcome reported by the `joinRoom` handler: `roomNotFound` is the
room-does-not-exist error emit, `roomFull` the room-is-full error emit. -/
inductive JoinOutcome where
  | joined
  | roomNotFound
  | roomFull
deriving DecidableEq, Repr

/-- The room registry `rooms : Map<string, GameRoom>`, as an insertion-ordered
association list. -/
def Registry := List (String × GameRoom)

/-- The `joinRoom` handler (lines 192-209): look the room up; missing room or
a room with ≥ 2 players is reported with no state change; otherwise push the
socket id and `startGame()` (the tick loop ends up running either way). -/
def joinRoom (rooms : List (String × GameRoom)) (roomId sid : String) :
    List (String × GameRoom) × JoinOutcome :=
  match List.lookup roomId rooms with
  | none => (rooms, JoinOutcome.roomNotFound)
  | some room =>
    if 2 ≤ room.players.length then (rooms, JoinOutcome.roomFull)
    else
      (rooms.map fun x =>
        if x.1 = roomId then
          (x.1, { room with players := room.players ++ [sid],
                            gameLoopRunning := true })
        else x,
       JoinOutcome.joined)

/-- The `disconnect` handler (lines 235-248): scan rooms in insertion order
for the first containing the socket id; splice it out (first occurrence),
`stopGame()`, and delete the room if now empty; then stop scanning. -/
def disconnect (rooms : List (String × GameRoom)) (sid : String) :
    List (String × GameRoom) :=
  match rooms with
  | [] => []
  | (rid, room) :: rest =>
    if sid ∈ room.players then
      let room' := { room with players := room.players.erase sid,
                               gameLoopRunning := false }
      if room'.players.length = 0 then rest else (rid, room') :: rest
    else (rid, room) :: disconnect rest sid

/-! ## Concrete example states (used by witnesses and counterexamples) -/

/-- A deterministic stand-in for the `Math.random()` oracle. -/
def exRng : Nat → Nat × Nat := fun n => (n, n)

/-- Snake 1 in its spawn configuration. -/
def exSnake1 : Snake :=
  { positions := [{ x := 200, y := 300 }], direction := Direction.RIGHT,
    color := COLORS.GREEN, score := 0, speed := GAME_SPEED }

/-- Snake 2 one block to the right of where a head-to-head meeting with
`exSnake1` will occur. -/
def exSnake2 : Snake :=
  { positions := [{ x := 240, y := 300 }], direction := Direction.LEFT,
    color := COLORS.BLUE, score := 0, speed := GAME_SPEED }

/-- A game state whose next advanced tick produces a head-to-head collision
at `(220, 300)` with the food elsewhere. -/
def exGs : GameState :=
  { snake1 := exSnake1, snake2 := exSnake2,
    food := { position := { x := 0, y := 0 }, color := COLORS.RED },
    lastUpdate := 0 }

/-- A game state whose next advanced tick lands BOTH new heads on the food
cell `(220, 300)`. -/
def exGsFood : GameState :=
  { snake1 := exSnake1, snake2 := exSnake2,
    food := { position := { x := 220, y := 300 }, color := COLORS.RED },
    lastUpdate := 0 }

/-- A room with two occupants. -/
def exRoomFull : GameRoom :=
  { id := "r1", players := ["a", "b"],
    gameState := initializeGameState (0, 0) 0, gameLoopRunning := true }

/-- A room with a single occupant `"a"`. -/
def exRoomA : GameRoom :=
  { id := "ra", players := ["a"],
    gameState := initializeGameState (0, 0) 0, gameLoopRunning := true }

/-- A room with occupants `"b"` and `"c"`. -/
def exRoomBC : GameRoom :=
  { id := "rb", players := ["b", "c"],
    gameState := initializeGameState (1, 2) 0, gameLoopRunning := true }

/-! ## Helper lemmas -/

/-- The per-cell test `pos.x === head.x && pos.y === head.y` over a list is
list membership of the head. -/
theorem any_cellEq_iff_mem (h : Position) (l : List Position) :
    (l.any fun p => p.x == h.x && p.y == h.y) = true ↔ h ∈ l := by
  simp only [List.any_eq_true, Bool.and_eq_true, beq_iff_eq]
  constructor
  · rintro ⟨p, hp, hx, hy⟩
    exact (Position.ext hx hy : p = h) ▸ hp
  · intro hm
    exact ⟨h, hm, rfl, rfl⟩

/-! ## Claim theorems -/

/-- C2: `checkCollision` holds exactly when snake1 self-collides, or snake2
self-collides, or either head occurs anywhere in the other snake's full body;
in particular two heads on the same cell is a (mutual) collision. -/
theorem checkCollision_iff (gs : GameState) :
    (checkCollision gs = true ↔
      (gs.snake1.positions.headD { x := 0, y := 0 } ∈ gs.snake1.positions.drop 1 ∨
       gs.snake2.positions.headD { x := 0, y := 0 } ∈ gs.snake2.positions.drop 1 ∨
       gs.snake1.positions.headD { x := 0, y := 0 } ∈ gs.snake2.positions ∨
       gs.snake2.positions.headD { x := 0, y := 0 } ∈ gs.snake1.positions)) ∧
    (gs.snake2.positions ≠ [] →
      gs.snake1.positions.headD { x := 0, y := 0 } =
        gs.snake2.positions.headD { x := 0, y := 0 } →
      checkCollision gs = true) := by
  have hiff : checkCollision gs = true ↔
      (gs.snake1.positions.headD { x := 0, y := 0 } ∈ gs.snake1.positions.drop 1 ∨
       gs.snake2.positions.headD { x := 0, y := 0 } ∈ gs.snake2.positions.drop 1 ∨
       gs.snake1.positions.headD { x := 0, y := 0 } ∈ gs.snake2.positions ∨
       gs.snake2.positions.headD { x := 0, y := 0 } ∈ gs.snake1.positions) := by
    unfold checkCollision checkSelfCollision checkSnakeCollision
    simp only [Bool.or_eq_true, any_cellEq_iff_mem]
    tauto
  refine ⟨hiff, fun hne heq => ?_⟩
  rcases List.exists_cons_of_ne_nil hne with ⟨a, l, h2⟩
  refine hiff.mpr (Or.inr (Or.inr (Or.inl ?_)))
  rw [heq, h2]
  exact List.mem_cons_self a l

/-- C4: per snake, per step: a non-eating step keeps body length and score
unchanged; an eating step grows the body by exactly 1 and the score by
exactly 1. -/
theorem stepSnake_length_score (f : Position) (s : Snake) :
    (newHead s ≠ f →
      (stepSnake f s).1.positions.length = s.positions.length ∧
      (stepSnake f s).1.score = s.score) ∧
    (newHead s = f →
      (stepSnake f s).1.positions.length = s.positions.length + 1 ∧
      (stepSnake f s).1.score = s.score + 1) := by
  rcases eq_or_ne (newHead s) f with he | hne
  · have hc : (newHead s).x = f.x ∧ (newHead s).y = f.y := by rw [he]; exact ⟨rfl, rfl⟩
    refine ⟨fun h => absurd he h, fun _ => ?_⟩
    simp [stepSnake, hc]
  · have hc : ¬((newHead s).x = f.x ∧ (newHead s).y = f.y) := by
      rintro ⟨hx, hy⟩
      exact hne (Position.ext hx hy)
    refine ⟨fun _ => ?_, fun h => absurd h hne⟩
    simp [stepSnake, hc, List.length_dropLast]

/-- C4 witness: a concrete non-eating step keeps length and score. -/
theorem stepSnake_length_score_witness :
    (stepSnake { x := 0, y := 0 }
        { positions := [{ x := 200, y := 300 }], direction := Direction.RIGHT,
          color := COLORS.GREEN, score := 0, speed := GAME_SPEED }).1.positions.length =
      ([{ x := 200, y := 300 }] : List Position).length ∧
    (stepSnake { x := 0, y := 0 }
        { positions := [{ x := 200, y := 300 }], direction := Direction.RIGHT,
          color := COLORS.GREEN, score := 0, speed := GAME_SPEED }).1.score = 0 :=
  (stepSnake_length_score { x := 0, y := 0 }
    { positions := [{ x := 200, y := 300 }], direction := Direction.RIGHT,
      color := COLORS.GREEN, score := 0, speed := GAME_SPEED }).1 (by decide)

/-- C6: for the four unit directions, a direction request leaves the snake's
direction unchanged exactly when it shares the current direction's zero axis
or is its exact negation (and then the whole snake is untouched); any other
request (i.e. a perpendicular one) replaces the direction immediately. -/
theorem applyDirection_spec (s : Snake) (req : Direction)
    (hreq : req = Direction.UP ∨ req = Direction.DOWN ∨
            req = Direction.LEFT ∨ req = Direction.RIGHT)
    (hcur : s.direction = Direction.UP ∨ s.direction = Direction.DOWN ∨
            s.direction = Direction.LEFT ∨ s.direction = Direction.RIGHT) :
    ((applyDirection req s).direction = s.direction ↔
      ((req.x = 0 ∧ s.direction.x = 0) ∨ (req.y = 0 ∧ s.direction.y = 0) ∨
       (req.x = -s.direction.x ∧ req.y = -s.direction.y))) ∧
    (((req.x = 0 ∧ s.direction.x = 0) ∨ (req.y = 0 ∧ s.direction.y = 0) ∨
       (req.x = -s.direction.x ∧ req.y = -s.direction.y)) →
      applyDirection req s = s) ∧
    (¬((req.x = 0 ∧ s.direction.x = 0) ∨ (req.y = 0 ∧ s.direction.y = 0) ∨
       (req.x = -s.direction.x ∧ req.y = -s.direction.y)) →
      applyDirection req s = { s with direction := req }) := by
  rcases hreq with h1 | h1 | h1 | h1 <;> rcases hcur with h2 | h2 | h2 | h2 <;>
    simp [applyDirection, directionRejected, h1, h2,
      Direction.UP, Direction.DOWN, Direction.LEFT, Direction.RIGHT]

/-- C6 witness: a concrete perpendicular request (current Right, request Up)
replaces the direction. -/
theorem applyDirection_spec_witness :
    ¬((Direction.UP.x = 0 ∧ Direction.RIGHT.x = 0) ∨
      (Direction.UP.y = 0 ∧ Direction.RIGHT.y = 0) ∨
      (Direction.UP.x = -Direction.RIGHT.x ∧ Direction.UP.y = -Direction.RIGHT.y)) ∧
    applyDirection Direction.UP
        { positions := [{ x := 200, y := 300 }], direction := Direction.RIGHT,
          color := COLORS.GREEN, score := 0, speed := GAME_SPEED } =
      { positions := [{ x := 200, y := 300 }], direction := Direction.UP,
        color := COLORS.GREEN, score := 0, speed := GAME_SPEED } :=
  ⟨by decide,
   (applyDirection_spec
      { positions := [{ x := 200, y := 300 }], direction := Direction.RIGHT,
        color := COLORS.GREEN, score := 0, speed := GAME_SPEED }
      Direction.UP (Or.inl rfl) (Or.inr (Or.inr (Or.inr rfl)))).2.2 (by decide)⟩

/-- Rate-limited tick: `update` changes nothing and reports no advance. -/
theorem update_skip (rng : Nat → Nat × Nat) (k : Nat) (now : Int)
    (gs : GameState) (h : (now - gs.lastUpdate) * GAME_SPEED < 1000) :
    update rng k now gs = (gs, k, false) := by
  simp [update, h]

/-- Shape of an advanced tick: move both snakes, then either reset (on
collision) or keep the moved state, with `lastUpdate` set to `now`. -/
theorem update_advance_eq (rng : Nat → Nat × Nat) (k : Nat) (now : Int)
    (gs : GameState) (h : ¬(now - gs.lastUpdate) * GAME_SPEED < 1000) :
    update rng k now gs =
      if checkCollision (moveSnakes rng k gs).1 then
        ({ resetGame (rng (moveSnakes rng k gs).2) now with lastUpdate := now },
         (moveSnakes rng k gs).2 + 1, true)
      else
        ({ (moveSnakes rng k gs).1 with lastUpdate := now },
         (moveSnakes rng k gs).2, true) := by
  simp only [update, if_neg h]
  split <;> rfl

/-- `stepSnake` never empties a non-empty body. -/
theorem stepSnake_pos_ne_nil (f : Position) (s : Snake)
    (h : s.positions ≠ []) : (stepSnake f s).1.positions ≠ [] := by
  by_cases hc : (newHead s).x = f.x ∧ (newHead s).y = f.y
  · simp [stepSnake, hc]
  · apply List.ne_nil_of_length_pos
    have hl : 0 < s.positions.length := List.length_pos.mpr h
    simp [stepSnake, hc, List.length_dropLast]
    omega

/-- `disconnect` skips rooms that do not contain the socket id. -/
theorem disconnect_append (sid : String) (pre post : List (String × GameRoom))
    (h : ∀ x ∈ pre, sid ∉ x.2.players) :
    disconnect (pre ++ post) sid = pre ++ disconnect post sid := by
  induction pre with
  | nil => simp
  | cons x xs ih =>
    obtain ⟨a, b⟩ := x
    have hx : sid ∉ b.players := h (a, b) (List.mem_cons_self _ _)
    simp only [List.cons_append, disconnect, if_neg hx, List.cons.injEq, true_and]
    exact ih fun y hy => h y (List.mem_cons_of_mem _ hy)

/-- `disconnect` on the room holding the socket id: splice the id out, stop
the loop, drop the room when it became empty. -/
theorem disconnect_cons_mem (sid rid : String) (room : GameRoom)
    (post : List (String × GameRoom)) (hmem : sid ∈ room.players) :
    disconnect ((rid, room) :: post) sid =
      if (room.players.erase sid).length = 0 then post
      else (rid, { room with players := room.players.erase sid,
                             gameLoopRunning := false }) :: post := by
  simp [disconnect, hmem]

/-- C2 witness: two single-cell snakes whose heads share a cell collide. -/
theorem checkCollision_iff_witness :
    checkCollision
      { snake1 := { positions := [{ x := 220, y := 300 }],
                    direction := Direction.RIGHT, color := COLORS.GREEN,
                    score := 0, speed := GAME_SPEED },
        snake2 := { positions := [{ x := 220, y := 300 }],
                    direction := Direction.LEFT, color := COLORS.BLUE,
                    score := 0, speed := GAME_SPEED },
        food := { position := { x := 0, y := 0 }, color := COLORS.RED },
        lastUpdate := 0 } = true :=
  (checkCollision_iff _).2 (by decide) (by decide)

/-- C5: starting from a stored position with block-aligned coordinates inside
the canvas, one step's new head stays inside `[0, W) × [0, H)` and stays
block-aligned, for every direction; generated food satisfies the same. -/
theorem newHead_wrap (s : Snake) (r : Nat × Nat)
    (hx0 : 0 ≤ (s.positions.headD { x := 0, y := 0 }).x)
    (hx1 : (s.positions.headD { x := 0, y := 0 }).x < CANVAS_WIDTH)
    (hy0 : 0 ≤ (s.positions.headD { x := 0, y := 0 }).y)
    (hy1 : (s.positions.headD { x := 0, y := 0 }).y < CANVAS_HEIGHT)
    (hmx : BLOCK_SIZE ∣ (s.positions.headD { x := 0, y := 0 }).x)
    (hmy : BLOCK_SIZE ∣ (s.positions.headD { x := 0, y := 0 }).y)
    (hd : s.direction = Direction.UP ∨ s.direction = Direction.DOWN ∨
          s.direction = Direction.LEFT ∨ s.direction = Direction.RIGHT) :
    (0 ≤ (newHead s).x ∧ (newHead s).x < CANVAS_WIDTH ∧
     BLOCK_SIZE ∣ (newHead s).x ∧
     0 ≤ (newHead s).y ∧ (newHead s).y < CANVAS_HEIGHT ∧
     BLOCK_SIZE ∣ (newHead s).y) ∧
    (0 ≤ (generateFood r).position.x ∧
     (generateFood r).position.x < CANVAS_WIDTH ∧
     BLOCK_SIZE ∣ (generateFood r).position.x ∧
     0 ≤ (generateFood r).position.y ∧
     (generateFood r).position.y < CANVAS_HEIGHT ∧
     BLOCK_SIZE ∣ (generateFood r).position.y) := by
  constructor
  · rcases hd with h | h | h | h <;>
      simp only [newHead, h, Direction.UP, Direction.DOWN, Direction.LEFT,
        Direction.RIGHT, CANVAS_WIDTH, CANVAS_HEIGHT, BLOCK_SIZE] at * <;>
      omega
  · simp only [generateFood, CANVAS_WIDTH, CANVAS_HEIGHT, BLOCK_SIZE]
    refine ⟨?_, ?_, ?_, ?_, ?_, ?_⟩ <;> omega

/-- C5 witness: the spawn cell of snake 1, facing Right, and a concrete
oracle value. -/
theorem newHead_wrap_witness :
    (0 ≤ (newHead exSnake1).x ∧ (newHead exSnake1).x < CANVAS_WIDTH ∧
     BLOCK_SIZE ∣ (newHead exSnake1).x ∧
     0 ≤ (newHead exSnake1).y ∧ (newHead exSnake1).y < CANVAS_HEIGHT ∧
     BLOCK_SIZE ∣ (newHead exSnake1).y) ∧
    (0 ≤ (generateFood (41, 31)).position.x ∧
     (generateFood (41, 31)).position.x < CANVAS_WIDTH ∧
     BLOCK_SIZE ∣ (generateFood (41, 31)).position.x ∧
     0 ≤ (generateFood (41, 31)).position.y ∧
     (generateFood (41, 31)).position.y < CANVAS_HEIGHT ∧
     BLOCK_SIZE ∣ (generateFood (41, 31)).position.y) :=
  newHead_wrap exSnake1 (41, 31) (by decide) (by decide) (by decide)
    (by decide) (by decide) (by decide) (by decide)

/-- C7: a call inside the rate-limit window mutates nothing and reports no
advance; otherwise the tick advances: it reports `true`, sets
`lastUpdate = now`, produces the moved-and-collision-resolved state, and a
second call less than `1000/GAME_SPEED` ms later is a no-op. -/
theorem update_tick_rate (rng rng2 : Nat → Nat × Nat) (k k2 : Nat)
    (now now2 : Int) (gs : GameState) :
    ((now - gs.lastUpdate) * GAME_SPEED < 1000 →
      update rng k now gs = (gs, k, false)) ∧
    (¬(now - gs.lastUpdate) * GAME_SPEED < 1000 →
      (update rng k now gs).2.2 = true ∧
      (update rng k now gs).1.lastUpdate = now ∧
      (update rng k now gs).1 =
        { (if checkCollision (moveSnakes rng k gs).1 then
             resetGame (rng (moveSnakes rng k gs).2) now
           else (moveSnakes rng k gs).1) with lastUpdate := now } ∧
      ((now2 - now) * GAME_SPEED < 1000 →
        update rng2 k2 now2 (update rng k now gs).1 =
          ((update rng k now gs).1, k2, false))) := by
  refine ⟨fun h => update_skip rng k now gs h, fun h => ?_⟩
  have he := update_advance_eq rng k now gs h
  have hlu : (update rng k now gs).1.lastUpdate = now := by
    rw [he]; split <;> rfl
  refine ⟨by rw [he]; split <;> rfl, hlu, by rw [he]; split <;> rfl,
    fun h2 => update_skip rng2 k2 now2 _ (by rw [hlu]; exact h2)⟩

/-- C7 witness: at `now = 10` (window still open) the call is a no-op; at
`now = 1000` the tick advances. -/
theorem update_tick_rate_witness :
    update exRng 0 10 exGs = (exGs, 0, false) ∧
    (update exRng 0 1000 exGs).2.2 = true :=
  ⟨(update_tick_rate exRng exRng 0 0 10 0 exGs).1 (by decide),
   ((update_tick_rate exRng exRng 0 0 1000 0 exGs).2 (by decide)).1⟩

/-- C3: when an advanced tick detects a collision, the whole match state is
reinitialized: single-cell bodies at the two spawn cells facing Right/Left,
both scores 0, a fresh food, nothing carried over. -/
theorem update_reset_on_collision (rng : Nat → Nat × Nat) (k : Nat)
    (now : Int) (gs : GameState)
    (h1 : ¬(now - gs.lastUpdate) * GAME_SPEED < 1000)
    (h2 : checkCollision (moveSnakes rng k gs).1 = true) :
    (update rng k now gs).1.snake1.positions =
      [{ x := CANVAS_WIDTH / 4, y := CANVAS_HEIGHT / 2 }] ∧
    (update rng k now gs).1.snake1.direction = Direction.RIGHT ∧
    (update rng k now gs).1.snake1.score = 0 ∧
    (update rng k now gs).1.snake2.positions =
      [{ x := CANVAS_WIDTH * 3 / 4, y := CANVAS_HEIGHT / 2 }] ∧
    (update rng k now gs).1.snake2.direction = Direction.LEFT ∧
    (update rng k now gs).1.snake2.score = 0 ∧
    (update rng k now gs).1.food = generateFood (rng (moveSnakes rng k gs).2) ∧
    (update rng k now gs).1 =
      { resetGame (rng (moveSnakes rng k gs).2) now with lastUpdate := now } := by
  rw [update_advance_eq rng k now gs h1, if_pos h2]
  exact ⟨rfl, rfl, rfl, rfl, rfl, rfl, rfl, rfl⟩

/-- C3 witness: a head-to-head meeting at `(220, 300)` resets the match. -/
theorem update_reset_on_collision_witness :
    (update exRng 0 1000 exGs).1.snake1.positions =
      [{ x := CANVAS_WIDTH / 4, y := CANVAS_HEIGHT / 2 }] ∧
    (update exRng 0 1000 exGs).1.snake1.direction = Direction.RIGHT ∧
    (update exRng 0 1000 exGs).1.snake1.score = 0 ∧
    (update exRng 0 1000 exGs).1.snake2.positions =
      [{ x := CANVAS_WIDTH * 3 / 4, y := CANVAS_HEIGHT / 2 }] ∧
    (update exRng 0 1000 exGs).1.snake2.direction = Direction.LEFT ∧
    (update exRng 0 1000 exGs).1.snake2.score = 0 ∧
    (update exRng 0 1000 exGs).1.food =
      generateFood (exRng (moveSnakes exRng 0 exGs).2) ∧
    (update exRng 0 1000 exGs).1 =
      { resetGame (exRng (moveSnakes exRng 0 exGs).2) 1000 with
          lastUpdate := 1000 } :=
  update_reset_on_collision exRng 0 1000 exGs (by decide) (by decide)

/-- C10: initialization (and hence reset) produces single-cell — in
particular non-empty — bodies, and an `update` from a state with non-empty
bodies keeps both bodies non-empty, so `positions[0]` is always defined. -/
theorem positions_nonempty (r : Nat × Nat) (now now2 : Int)
    (rng : Nat → Nat × Nat) (k : Nat) (gs : GameState) :
    ((initializeGameState r now).snake1.positions ≠ [] ∧
     (initializeGameState r now).snake2.positions ≠ [] ∧
     (resetGame r now).snake1.positions ≠ [] ∧
     (resetGame r now).snake2.positions ≠ []) ∧
    (gs.snake1.positions ≠ [] → gs.snake2.positions ≠ [] →
      (update rng k now2 gs).1.snake1.positions ≠ [] ∧
      (update rng k now2 gs).1.snake2.positions ≠ []) := by
  refine ⟨by simp [initializeGameState, resetGame], fun h1 h2 => ?_⟩
  by_cases hc : (now2 - gs.lastUpdate) * GAME_SPEED < 1000
  · rw [update_skip rng k now2 gs hc]
    exact ⟨h1, h2⟩
  · rw [update_advance_eq rng k now2 gs hc]
    split
    · constructor <;> simp [resetGame, initializeGameState]
    · exact ⟨stepSnake_pos_ne_nil _ _ h1, stepSnake_pos_ne_nil _ _ h2⟩

/-- C10 witness: the invariant at the concrete example state. -/
theorem positions_nonempty_witness :
    ((initializeGameState (0, 0) 0).snake1.positions ≠ [] ∧
     (initializeGameState (0, 0) 0).snake2.positions ≠ [] ∧
     (resetGame (0, 0) 0).snake1.positions ≠ [] ∧
     (resetGame (0, 0) 0).snake2.positions ≠ []) ∧
    ((update exRng 0 1000 exGs).1.snake1.positions ≠ [] ∧
     (update exRng 0 1000 exGs).1.snake2.positions ≠ []) :=
  ⟨(positions_nonempty (0, 0) 0 1000 exRng 0 exGs).1,
   (positions_nonempty (0, 0) 0 1000 exRng 0 exGs).2 (by decide) (by decide)⟩

/-- C1 (amended): both eating checks in one tick compare against the food
captured at the start of the tick, so if both new heads land on the previous
food cell, BOTH scores increment and `generateFood` runs twice (the second
respawn overwriting the first); the coincident heads then constitute a mutual
collision, so the tick ends in a full reset. -/
theorem moveSnakes_both_eat (rng : Nat → Nat × Nat) (k : Nat) (gs : GameState)
    (h1 : newHead gs.snake1 = gs.food.position)
    (h2 : newHead gs.snake2 = gs.food.position) :
    (moveSnakes rng k gs).1.snake1.score = gs.snake1.score + 1 ∧
    (moveSnakes rng k gs).1.snake2.score = gs.snake2.score + 1 ∧
    (moveSnakes rng k gs).2 = k + 2 ∧
    (moveSnakes rng k gs).1.food = generateFood (rng (k + 1)) ∧
    checkCollision (moveSnakes rng k gs).1 = true := by
  have hc1 : (newHead gs.snake1).x = gs.food.position.x ∧
      (newHead gs.snake1).y = gs.food.position.y := by
    rw [h1]; exact ⟨rfl, rfl⟩
  have hc2 : (newHead gs.snake2).x = gs.food.position.x ∧
      (newHead gs.snake2).y = gs.food.position.y := by
    rw [h2]; exact ⟨rfl, rfl⟩
  have e1 : (moveSnakes rng k gs).1.snake1 =
      { gs.snake1 with positions := newHead gs.snake1 :: gs.snake1.positions,
                       score := gs.snake1.score + 1 } := by
    simp [moveSnakes, stepSnake, hc1, hc2]
  have e2 : (moveSnakes rng k gs).1.snake2 =
      { gs.snake2 with positions := newHead gs.snake2 :: gs.snake2.positions,
                       score := gs.snake2.score + 1 } := by
    simp [moveSnakes, stepSnake, hc1, hc2]
  have ek : (moveSnakes rng k gs).2 = k + 2 := by
    simp [moveSnakes, stepSnake, hc1, hc2]
  have ef : (moveSnakes rng k gs).1.food = generateFood (rng (k + 1)) := by
    simp [moveSnakes, stepSnake, hc1, hc2]
  have hne : newHead gs.snake2 = newHead gs.snake1 := h2.trans h1.symm
  have hmut : checkSnakeCollision (moveSnakes rng k gs).1.snake1
      (moveSnakes rng k gs).1.snake2 = true := by
    rw [e1, e2]
    simp [checkSnakeCollision, hne]
  refine ⟨by rw [e1], by rw [e2], ek, ef, ?_⟩
  simp [checkCollision, hmut]

/-- C1 counterexample: with the food at `(220, 300)` and both snakes about to
move onto it, the tick's move phase increments BOTH scores and consumes TWO
oracle values (two `generateFood` calls), and the second snake ate even
though its new head differs from the already-replaced food — refuting
"at most one score increment and exactly one food respawn". -/
theorem moveSnakes_both_eat_cex :
    (moveSnakes exRng 0 exGsFood).1.snake1.score = 1 ∧
    (moveSnakes exRng 0 exGsFood).1.snake2.score = 1 ∧
    (moveSnakes exRng 0 exGsFood).2 = 2 ∧
    newHead exGsFood.snake2 ≠ (generateFood (exRng 0)).position := by
  decide

/-- C1 witness (for the amended claim): the same concrete double-landing
state, through the amended theorem. -/
theorem moveSnakes_both_eat_witness :
    (moveSnakes exRng 0 exGsFood).1.snake1.score = exGsFood.snake1.score + 1 ∧
    (moveSnakes exRng 0 exGsFood).1.snake2.score = exGsFood.snake2.score + 1 ∧
    (moveSnakes exRng 0 exGsFood).2 = 0 + 2 ∧
    (moveSnakes exRng 0 exGsFood).1.food = generateFood (exRng (0 + 1)) ∧
    checkCollision (moveSnakes exRng 0 exGsFood).1 = true :=
  moveSnakes_both_eat exRng 0 exGsFood (by decide) (by decide)

/-- C8: a join for an unknown room id reports room-not-found and changes
nothing; a join for a full (two-occupant) room reports room-full and changes
nothing. -/
theorem joinRoom_errors (rooms : List (String × GameRoom))
    (roomId sid : String) (room : GameRoom) :
    (List.lookup roomId rooms = none →
      joinRoom rooms roomId sid = (rooms, JoinOutcome.roomNotFound)) ∧
    (List.lookup roomId rooms = some room → 2 ≤ room.players.length →
      joinRoom rooms roomId sid = (rooms, JoinOutcome.roomFull)) := by
  constructor
  · intro h
    simp [joinRoom, h]
  · intro h hfull
    simp [joinRoom, h, hfull]

/-- C8 witness: a one-room registry; joining `"nope"` fails with
room-not-found, joining the full room fails with room-full, both leaving the
registry untouched. -/
theorem joinRoom_errors_witness :
    joinRoom [("r1", exRoomFull)] "nope" "c" =
      ([("r1", exRoomFull)], JoinOutcome.roomNotFound) ∧
    joinRoom [("r1", exRoomFull)] "r1" "c" =
      ([("r1", exRoomFull)], JoinOutcome.roomFull) :=
  ⟨(joinRoom_errors [("r1", exRoomFull)] "nope" "c" exRoomFull).1 (by decide),
   (joinRoom_errors [("r1", exRoomFull)] "r1" "c" exRoomFull).2 (by decide)
     (by decide)⟩

/-- C9: disconnecting an occupant removes it from the (first) room holding
it and stops that room's loop; the room is dropped from the registry exactly
when no occupant remains, and otherwise keeps its game state unchanged. -/
theorem disconnect_spec (sid : String) (pre post : List (String × GameRoom))
    (rid : String) (room : GameRoom)
    (hpre : ∀ x ∈ pre, sid ∉ x.2.players) (hmem : sid ∈ room.players) :
    disconnect (pre ++ (rid, room) :: post) sid =
      (if (room.players.erase sid).length = 0 then pre ++ post
       else pre ++ (rid, { room with players := room.players.erase sid,
                                     gameLoopRunning := false }) :: post) ∧
    ({ room with players := room.players.erase sid,
                 gameLoopRunning := false } : GameRoom).gameState =
      room.gameState := by
  refine ⟨?_, rfl⟩
  rw [disconnect_append sid pre _ hpre,
    disconnect_cons_mem sid rid room post hmem]
  split <;> rfl

/-- C9 witness: occupant `"b"` leaves the second of two rooms; the first room
is untouched, `"c"` stays with the game state intact and the loop stopped. -/
theorem disconnect_spec_witness :
    disconnect ([("ra", exRoomA)] ++ ("rb", exRoomBC) :: []) "b" =
      (if (exRoomBC.players.erase "b").length = 0 then [("ra", exRoomA)] ++ []
       else [("ra", exRoomA)] ++
         ("rb", { exRoomBC with players := exRoomBC.players.erase "b",
                                gameLoopRunning := false }) :: []) ∧
    ({ exRoomBC with players := exRoomBC.players.erase "b",
                     gameLoopRunning := false } : GameRoom).gameState =
      exRoomBC.gameState :=
  disconnect_spec "b" [("ra", exRoomA)] [] "rb" exRoomBC (by decide) (by decide)
